import Mathlib

/-!
Verification development for the firedetect backend (`src/api/index.js` and the
two earlier revisions of the same file in `src/unnamed/part_000`).

The JavaScript handlers are shallowly embedded: JSON values are modelled by
`JSVal` (JS numbers as rationals together with a distinguished `NaN`; the model
has no infinities, which none of the handlers can produce from finite inputs),
request bodies as partial maps from field names, `undefined` as absence
(`Option.none`), and the Firestore collections as association lists from
document id to document.  `parseFloat`/`parseInt` are embedded for the decimal
numerals the handlers receive (optional sign, integer digits, optional fraction
digits, longest-prefix semantics; exponent forms and `Infinity` are outside the
model).  `admin.firestore.FieldValue.serverTimestamp()` is the sentinel
`CreatedAtField.server`; the alternative `CreatedAtField.client` exists only so
that "the handler never echoes a client value into `createdAt`" is a
non-trivial statement.
-/

namespace FireDetect

/-- A JavaScript number: either `NaN` or a finite value (modelled as `ℚ`). -/
inductive JSNum where
  | nan : JSNum
  | val : ℚ → JSNum
deriving DecidableEq

/-- A JSON value as the handlers can observe it after `express.json()` parsing. -/
inductive JSVal where
  | num : JSNum → JSVal
  | str : String → JSVal
  | bool : Bool → JSVal
  | null : JSVal
deriving DecidableEq

/-- A parsed request body: each field name maps to the field's value, or to
`none` when the field is absent (JS `undefined`). -/
def Body : Type := String → Option JSVal

/-- A concrete body built from an association list of fields. -/
def assocBody (l : List (String × JSVal)) : Body :=
  fun k => (l.find? (fun p => p.1 == k)).map (fun p => p.2)

/-- Digit run to a natural number (the chars are assumed to be `0`-`9`). -/
def digitsToNat (cs : List Char) : ℕ :=
  cs.foldl (fun a c => 10 * a + (c.toNat - 48)) 0

/-- Leading optional sign of a numeric literal: `true` means negative. -/
def stripSign : List Char → Bool × List Char
  | '-' :: t => (true, t)
  | '+' :: t => (false, t)
  | cs => (false, cs)

/-- JS whitespace skipped by `parseFloat`/`parseInt`. -/
def isJsSpace (c : Char) : Bool :=
  c == ' ' || c == '\t' || c == '\n' || c == '\r'

/-- `parseFloat` on a string: skip whitespace, optional sign, integer digits,
optional `.` and fraction digits; `NaN` when no digit was consumed; any
trailing characters are ignored (longest numeric prefix). -/
def parseFloatChars (cs0 : List Char) : JSNum :=
  let cs1 := cs0.dropWhile isJsSpace
  let sgn := stripSign cs1
  let intPart := sgn.2.takeWhile Char.isDigit
  let rest := sgn.2.dropWhile Char.isDigit
  let fracPart :=
    match rest with
    | '.' :: t => t.takeWhile Char.isDigit
    | _ => []
  if intPart = [] ∧ fracPart = [] then .nan
  else
    let mag : ℚ :=
      (digitsToNat intPart : ℚ) + (digitsToNat fracPart : ℚ) / (10 : ℚ) ^ fracPart.length
    .val (if sgn.1 then -mag else mag)

/-- `parseInt` (default radix 10) on a string: skip whitespace, optional sign,
integer digits only; `NaN` when no digit was consumed. -/
def parseIntChars (cs0 : List Char) : JSNum :=
  let cs1 := cs0.dropWhile isJsSpace
  let sgn := stripSign cs1
  let ds := sgn.2.takeWhile Char.isDigit
  if ds = [] then .nan
  else .val (if sgn.1 then -(digitsToNat ds : ℚ) else (digitsToNat ds : ℚ))

/-- Truncation toward zero, as `parseInt` applied to the decimal rendering of a
finite number behaves for the magnitudes the handlers see. -/
def ratTrunc (q : ℚ) : ℤ := q.num / (q.den : ℤ)

/-- `parseFloat(v)` for a defined value `v`. -/
def jsParseFloatV : JSVal → JSNum
  | .num n => n
  | .str s => parseFloatChars s.toList
  | .bool _ => .nan
  | .null => .nan

/-- `parseFloat(x)` where `x` may be `undefined`. -/
def jsParseFloat : Option JSVal → JSNum
  | none => .nan
  | some v => jsParseFloatV v

/-- `parseInt(v)` for a defined value `v`. -/
def jsParseIntV : JSVal → JSNum
  | .num .nan => .nan
  | .num (.val q) => .val ((ratTrunc q : ℤ) : ℚ)
  | .str s => parseIntChars s.toList
  | .bool _ => .nan
  | .null => .nan

/-- `parseInt(x)` where `x` may be `undefined`. -/
def jsParseInt : Option JSVal → JSNum
  | none => .nan
  | some v => jsParseIntV v

/-- JS truthiness of a number: `NaN` and `0` are falsy. -/
def JSNum.truthy : JSNum → Bool
  | .nan => false
  | .val q => decide (q ≠ 0)

/-- JS truthiness of a defined value. -/
def JSVal.truthy : JSVal → Bool
  | .num n => n.truthy
  | .str s => decide (s ≠ "")
  | .bool b => b
  | .null => false

/-- `x || d` where `x` may be `undefined` and `d` is a literal default. -/
def jsOrVal (x : Option JSVal) (d : JSVal) : JSVal :=
  match x with
  | some v => if v.truthy then v else d
  | none => d

/-- `n || t` where `n` is an already-parsed number and `t` an integer default
(used for `parseInt(time) || Date.now()`). -/
def jsNumOrInt (n : JSNum) (t : ℤ) : JSNum :=
  if n.truthy then n else .val (t : ℚ)

/-- The `createdAt` slot of a stored document.  The handlers only ever write
the server-timestamp sentinel; `client` models the possibility (never realised)
of echoing a client-supplied value. -/
inductive CreatedAtField where
  | server : CreatedAtField
  | client : JSVal → CreatedAtField
deriving DecidableEq

/-- Sensor document as built by `POST /api/add/sensor` in `src/api/index.js`
(all numeric fields coerced). -/
structure SensorDoc where
  lat : JSNum
  lon : JSNum
  smoke : JSNum
  temp : JSNum
  humidity : JSNum
  time : JSNum
  createdAt : CreatedAtField
deriving DecidableEq

/-- Sensor document as built by the `src/unnamed/part_000` revisions of
`POST /api/add/sensor`: `lat` and `lon` are stored exactly as supplied. -/
structure SensorDocRev where
  lat : JSVal
  lon : JSVal
  smoke : JSNum
  temp : JSNum
  humidity : JSNum
  time : JSNum
  createdAt : CreatedAtField
deriving DecidableEq

/-- Citizen-report document as built by `POST /api/add/citizen` in
`src/api/index.js`. -/
structure CitizenDoc where
  lat : JSNum
  lon : JSNum
  time : JSNum
  createdAt : CreatedAtField
deriving DecidableEq

/-- Citizen-report document as built by the `src/unnamed/part_000` revisions
(`lat`, `lon` uncoerced). -/
structure CitizenDocRev where
  lat : JSVal
  lon : JSVal
  time : JSNum
  createdAt : CreatedAtField
deriving DecidableEq

/-- Pre-report document as built by `POST /api/add/pre` in `src/api/index.js`. -/
structure PreDoc where
  lat : JSNum
  lon : JSNum
  startDate : JSNum
  endDate : JSNum
  rangeKm : JSNum
  createdAt : CreatedAtField
deriving DecidableEq

/-- Pre-report document as built by the `src/unnamed/part_000` revisions
(`lat`, `lon` uncoerced). -/
structure PreDocRev where
  lat : JSVal
  lon : JSVal
  startDate : JSNum
  endDate : JSNum
  rangeKm : JSNum
  createdAt : CreatedAtField
deriving DecidableEq

/-- `newDoc` of `POST /api/add/sensor` (`src/api/index.js` lines 113-121). -/
def sensorNewDoc (b : Body) (now : ℤ) : SensorDoc :=
  { lat := jsParseFloat (b "lat")
  , lon := jsParseFloat (b "lon")
  , smoke := jsParseFloat (b "smoke")
  , temp := jsParseFloat (b "temp")
  , humidity := jsParseFloatV (jsOrVal (b "humidity") (.num (.val 0)))
  , time := jsNumOrInt (jsParseInt (b "time")) now
  , createdAt := .server }

/-- `newDoc` of `POST /api/add/citizen` (`src/api/index.js` lines 144-149). -/
def citizenNewDoc (b : Body) (now : ℤ) : CitizenDoc :=
  { lat := jsParseFloat (b "lat")
  , lon := jsParseFloat (b "lon")
  , time := jsNumOrInt (jsParseInt (b "time")) now
  , createdAt := .server }

/-- `newDoc` of `POST /api/add/pre` (`src/api/index.js` lines 172-179). -/
def preNewDoc (b : Body) : PreDoc :=
  { lat := jsParseFloat (b "lat")
  , lon := jsParseFloat (b "lon")
  , startDate := jsParseInt (b "startDate")
  , endDate := jsParseInt (b "endDate")
  , rangeKm := jsParseFloatV (jsOrVal (b "rangeKm") (.num (.val (1/10))))
  , createdAt := .server }

/-- Outcome of an add-endpoint: `400` rejection or `201` creation. -/
inductive AddResult (δ : Type) where
  | badRequest : String → AddResult δ
  | created : δ → AddResult δ
deriving DecidableEq

/-- HTTP status of an add-endpoint outcome. -/
def AddResult.status : AddResult δ → ℕ
  | .badRequest _ => 400
  | .created _ => 201

/-- The three Firestore collections, each an association list from document id
to document, in insertion order. -/
structure Store where
  sensorData : List (String × SensorDoc)
  citizenReports : List (String × CitizenDoc)
  preReports : List (String × PreDoc)
deriving DecidableEq

/-- `POST /api/add/sensor` (`src/api/index.js` lines 106-130): required-field
guard, then `newDoc` construction and `db.collection('sensorData').add`.
`now` is `Date.now()` at handler execution, `newId` the store-generated id. -/
def addSensor (db : Store) (b : Body) (now : ℤ) (newId : String) :
    AddResult SensorDoc × Store :=
  if b "lat" = none ∨ b "lon" = none ∨ b "smoke" = none ∨ b "temp" = none then
    (.badRequest "Missing required fields for sensor data", db)
  else
    (.created (sensorNewDoc b now),
     { db with sensorData := db.sensorData ++ [(newId, sensorNewDoc b now)] })

/-- `POST /api/add/citizen` (`src/api/index.js` lines 137-158). -/
def addCitizen (db : Store) (b : Body) (now : ℤ) (newId : String) :
    AddResult CitizenDoc × Store :=
  if b "lat" = none ∨ b "lon" = none then
    (.badRequest "Missing required fields for citizen report", db)
  else
    (.created (citizenNewDoc b now),
     { db with citizenReports := db.citizenReports ++ [(newId, citizenNewDoc b now)] })

/-- `POST /api/add/pre` (`src/api/index.js` lines 165-188). -/
def addPre (db : Store) (b : Body) (newId : String) :
    AddResult PreDoc × Store :=
  if b "lat" = none ∨ b "lon" = none ∨ b "startDate" = none ∨ b "endDate" = none then
    (.badRequest "Missing required fields for pre-report", db)
  else
    (.created (preNewDoc b),
     { db with preReports := db.preReports ++ [(newId, preNewDoc b)] })

/-- `POST /api/add/sensor` of the `src/unnamed/part_000` revisions
(lines 137-160 and 341-364 there): same guard, but `lat` and `lon` are stored
as destructured, without `parseFloat`. -/
def addSensorRev (b : Body) (now : ℤ) : AddResult SensorDocRev :=
  match b "lat", b "lon", b "smoke", b "temp" with
  | some latV, some lonV, some smokeV, some tempV =>
      .created
        { lat := latV
        , lon := lonV
        , smoke := jsParseFloatV smokeV
        , temp := jsParseFloatV tempV
        , humidity := jsParseFloatV (jsOrVal (b "humidity") (.num (.val 0)))
        , time := jsNumOrInt (jsParseInt (b "time")) now
        , createdAt := .server }
  | _, _, _, _ => .badRequest "Missing required fields for sensor data"

/-- `POST /api/add/citizen` of the `src/unnamed/part_000` revisions. -/
def addCitizenRev (b : Body) (now : ℤ) : AddResult CitizenDocRev :=
  match b "lat", b "lon" with
  | some latV, some lonV =>
      .created
        { lat := latV
        , lon := lonV
        , time := jsNumOrInt (jsParseInt (b "time")) now
        , createdAt := .server }
  | _, _ => .badRequest "Missing required fields for citizen report"

/-- `POST /api/add/pre` of the `src/unnamed/part_000` revisions. -/
def addPreRev (b : Body) : AddResult PreDocRev :=
  match b "lat", b "lon", b "startDate", b "endDate" with
  | some latV, some lonV, some sdV, some edV =>
      .created
        { lat := latV
        , lon := lonV
        , startDate := jsParseIntV sdV
        , endDate := jsParseIntV edV
        , rangeKm := jsParseFloatV (jsOrVal (b "rangeKm") (.num (.val (1/10))))
        , createdAt := .server }
  | _, _, _, _ => .badRequest "Missing required fields for pre-report"

/-- Successful payload of `GET /api/data`: the three arrays, each entry the
`{ id: doc.id, ...doc.data() }` snapshot of a stored document, which this
embedding renders as the `(id, doc)` pair itself. -/
structure DataOk where
  sensorData : List (String × SensorDoc)
  citizenReports : List (String × CitizenDoc)
  preReports : List (String × PreDoc)
deriving DecidableEq

/-- The success path of `GET /api/data` (`src/api/index.js` lines 74-94): all
three collections are read whole (`.get()` with no `where` clause) and each
document is mapped to its id/data snapshot. -/
def getData (db : Store) : DataOk :=
  { sensorData := db.sensorData.map (fun d => (d.1, d.2))
  , citizenReports := db.citizenReports.map (fun d => (d.1, d.2))
  , preReports := db.preReports.map (fun d => (d.1, d.2)) }

/-- A field of the JSON body `GET /api/data` responds with. -/
inductive RespField where
  | sArr : List (String × SensorDoc) → RespField
  | cArr : List (String × CitizenDoc) → RespField
  | pArr : List (String × PreDoc) → RespField
  | sVal : String → RespField
deriving DecidableEq

/-- Full `GET /api/data` handler (`src/api/index.js` lines 74-99): the joint
fetch either yields the store contents or rejects with an error; on rejection
the catch block answers `500` with a body holding only the `error` field. -/
def getDataHandler (fetch : Except String Store) : ℕ × List (String × RespField) :=
  match fetch with
  | .ok db =>
      (200,
       [("sensorData", .sArr (getData db).sensorData),
        ("citizenReports", .cArr (getData db).citizenReports),
        ("preReports", .pArr (getData db).preReports)])
  | .error _ => (500, [("error", .sVal "Error fetching combined data from Firebase")])

/-- Modelled from the spec: the Query Filter Policy predicate for `sensor` and
`citizen` kinds, `time > now - 24h` in epoch millis.  This policy exists only
in the spec; the `GET /api/data` code reads collections unfiltered, and this
definition is kept solely to compare the spec against the code. -/
def specRecencyPred (t : JSNum) (now : ℤ) : Bool :=
  match t with
  | .nan => false
  | .val q => decide ((now : ℚ) - 86400000 < q)

/-- Modelled from the spec: the Query Filter Policy predicate for the `pre`
kind, `endDate > now`.  Like `specRecencyPred`, this appears nowhere in the
code; it is kept to compare the spec against the code. -/
def specValidityPred (endDate : JSNum) (now : ℤ) : Bool :=
  match endDate with
  | .nan => false
  | .val q => decide ((now : ℚ) < q)

/-- Failure injected into `deleteCollection`: `some (i, m)` makes the batch
commit of round `i` (0-based) reject with message `m`; `none` means the store
never fails. -/
def failsAt (failAt : Option (ℕ × String)) (round : ℕ) : Option String :=
  match failAt with
  | some (i, m) => if round = i then some m else none
  | none => none

/-- One run of `deleteCollection`'s `while (true)` loop
(`src/api/index.js` lines 196-211).  Result: `(outcome, batch sizes committed,
fetches performed, documents remaining)`.  Each iteration fetches up to `bs`
documents; an empty fetch ends the loop; otherwise the batch commit either
rejects (injected via `failAt`, leaving the fetched page undeleted) or removes
the page and continues.  The loop is modelled with fuel `docs.length`, which
suffices because every committed round removes at least one document when
`bs ≥ 1`; the fuel-exhausted arm (fetch count 0) is unreachable in every use
below. -/
def deleteRun (bs : ℕ) (failAt : Option (ℕ × String)) :
    ℕ → List α → ℕ → ℕ → (Except String ℕ) × List ℕ × ℕ × List α
  | _, [], _, acc => (.ok acc, [], 1, [])
  | 0, docs, _, acc => (.ok acc, [], 0, docs)
  | fuel + 1, docs, round, acc =>
    match failsAt failAt round with
    | some m => (.error m, [], 1, docs)
    | none =>
        let r := deleteRun bs failAt fuel (docs.drop bs) (round + 1)
                   (acc + (docs.take bs).length)
        (r.1, (docs.take bs).length :: r.2.1, 1 + r.2.2.1, r.2.2.2)

/-- `deleteCollection(db, name, batchSize)` on a collection holding `docs`,
with the failure schedule `failAt` (use `none` for a store that never fails). -/
def deleteCollection (docs : List α) (bs : ℕ) (failAt : Option (ℕ × String)) :
    (Except String ℕ) × List ℕ × ℕ × List α :=
  deleteRun bs failAt docs.length docs 0 0

/-- Response of the `/api/delete/all` handlers. -/
structure DeleteAllResp where
  status : ℕ
  ok : Bool
  deleted : Option (ℕ × ℕ × ℕ)
  error : Option String
  detail : Option String
deriving DecidableEq

/-- The `DELETE /api/delete/all` handler (`src/api/index.js` lines 213-224;
the `POST` variant at lines 227-238 is identical): drain `sensorData`, then
`citizenReports`, then `preReports`, each with the default batch size 300;
the first rejected batch commit throws out of the `for` loop into the catch
block, which answers `500 {ok:false, error:'Delete failed', detail}` — later
collections are not attempted and committed batches stay deleted. -/
def deleteAllHandler (st : Store) (fS fC fP : Option (ℕ × String)) :
    DeleteAllResp × Store :=
  let outS := deleteCollection st.sensorData 300 fS
  match outS.1 with
  | .error m =>
      (⟨500, false, none, some "Delete failed", some m⟩,
       ⟨outS.2.2.2, st.citizenReports, st.preReports⟩)
  | .ok nS =>
    let outC := deleteCollection st.citizenReports 300 fC
    match outC.1 with
    | .error m =>
        (⟨500, false, none, some "Delete failed", some m⟩,
         ⟨outS.2.2.2, outC.2.2.2, st.preReports⟩)
    | .ok nC =>
      let outP := deleteCollection st.preReports 300 fP
      match outP.1 with
      | .error m =>
          (⟨500, false, none, some "Delete failed", some m⟩,
           ⟨outS.2.2.2, outC.2.2.2, outP.2.2.2⟩)
      | .ok nP =>
          (⟨200, true, some (nS, nC, nP), none, none⟩,
           ⟨outS.2.2.2, outC.2.2.2, outP.2.2.2⟩)

lemma deleteRun_none_spec {α : Type} (bs : ℕ) (hbs : bs ≠ 0) :
    ∀ (fuel : ℕ) (docs : List α) (round acc : ℕ), docs.length ≤ fuel →
      (deleteRun bs none fuel docs round acc).1 = .ok (acc + docs.length) ∧
      (deleteRun bs none fuel docs round acc).2.1.sum = docs.length ∧
      (deleteRun bs none fuel docs round acc).2.2.1 =
        (deleteRun bs none fuel docs round acc).2.1.length + 1 ∧
      (deleteRun bs none fuel docs round acc).2.2.2 = [] := by
  intro fuel
  induction fuel with
  | zero =>
    intro docs round acc h
    have hnil : docs = [] := List.eq_nil_of_length_eq_zero (Nat.le_zero.mp h)
    subst hnil
    simp [deleteRun]
  | succ n ih =>
    intro docs round acc h
    cases docs with
    | nil => simp [deleteRun]
    | cons d ds =>
      simp only [List.length_cons] at h
      have hbs1 : 1 ≤ bs := Nat.one_le_iff_ne_zero.mpr hbs
      have hlen : (List.drop bs (d :: ds)).length ≤ n := by
        simp only [List.length_drop, List.length_cons]
        omega
      obtain ⟨ih1, ih2, ih3, ih4⟩ :=
        ih (List.drop bs (d :: ds)) (round + 1) (acc + (List.take bs (d :: ds)).length) hlen
      simp only [deleteRun, failsAt]
      refine ⟨?_, ?_, ?_, ih4⟩
      · rw [ih1]
        congr 1
        simp only [List.length_take, List.length_drop, List.length_cons]
        omega
      · rw [List.sum_cons, ih2]
        simp only [List.length_take, List.length_drop, List.length_cons]
        omega
      · rw [ih3, List.length_cons]
        omega

lemma deleteRun_none_len300 {α : Type} :
    ∀ (fuel : ℕ) (docs : List α) (round acc : ℕ), docs.length ≤ fuel →
      (deleteRun 300 none fuel docs round acc).2.1.length = (docs.length + 299) / 300 := by
  intro fuel
  induction fuel with
  | zero =>
    intro docs round acc h
    have hnil : docs = [] := List.eq_nil_of_length_eq_zero (Nat.le_zero.mp h)
    subst hnil
    simp [deleteRun]
  | succ n ih =>
    intro docs round acc h
    cases docs with
    | nil => simp [deleteRun]
    | cons d ds =>
      simp only [List.length_cons] at h
      have hlen : (List.drop 300 (d :: ds)).length ≤ n := by
        simp only [List.length_drop, List.length_cons]
        omega
      have ihl := ih (List.drop 300 (d :: ds)) (round + 1)
        (acc + (List.take 300 (d :: ds)).length) hlen
      simp only [deleteRun, failsAt]
      rw [List.length_cons, ihl]
      simp only [List.length_drop, List.length_cons]
      omega

lemma deleteCollection_none_spec {α : Type} (docs : List α) :
    (deleteCollection docs 300 none).1 = .ok docs.length ∧
    (deleteCollection docs 300 none).2.1.sum = docs.length ∧
    (deleteCollection docs 300 none).2.1.length = (docs.length + 299) / 300 ∧
    (deleteCollection docs 300 none).2.2.1 =
      (deleteCollection docs 300 none).2.1.length + 1 ∧
    (deleteCollection docs 300 none).2.2.2 = [] := by
  obtain ⟨h1, h2, h3, h4⟩ :=
    deleteRun_none_spec (α := α) 300 (by omega) docs.length docs 0 0 (Nat.le_refl _)
  have h5 := deleteRun_none_len300 (α := α) docs.length docs 0 0 (Nat.le_refl _)
  exact ⟨by simpa using h1, h2, h5, h3, h4⟩

lemma deleteRun_fail_spec {α : Type} (m : String) :
    ∀ (i fuel : ℕ) (docs : List α) (round acc : ℕ),
      docs.length ≤ fuel → 300 * i < docs.length →
      deleteRun 300 (some (round + i, m)) fuel docs round acc =
        (.error m, List.replicate i 300, i + 1, docs.drop (300 * i)) := by
  intro i
  induction i with
  | zero =>
    intro fuel docs round acc hfuel hcnt
    cases docs with
    | nil => simp at hcnt
    | cons d ds =>
      cases fuel with
      | zero => simp at hfuel
      | succ n => simp [deleteRun, failsAt]
  | succ i ih =>
    intro fuel docs round acc hfuel hcnt
    cases docs with
    | nil => simp at hcnt
    | cons d ds =>
      cases fuel with
      | zero => simp at hfuel
      | succ n =>
        simp only [List.length_cons] at hfuel hcnt
        have hlen : (List.drop 300 (d :: ds)).length ≤ n := by
          simp only [List.length_drop, List.length_cons]
          omega
        have hcnt2 : 300 * i < (List.drop 300 (d :: ds)).length := by
          simp only [List.length_drop, List.length_cons]
          omega
        have hshift : round + (i + 1) = (round + 1) + i := by omega
        have ihe := ih n (List.drop 300 (d :: ds)) (round + 1)
          (acc + (List.take 300 (d :: ds)).length) hlen hcnt2
        have hne : round ≠ (round + 1) + i := by omega
        rw [hshift]
        simp only [deleteRun, failsAt, if_neg hne, ihe]
        have htake : (List.take 300 (d :: ds)).length = 300 := by
          simp only [List.length_take, List.length_cons]
          omega
        rw [htake]
        simp only [Prod.mk.injEq]
        refine ⟨by trivial, by simp [List.replicate_succ], by omega, ?_⟩
        rw [List.drop_drop]
        congr 1
        omega

lemma deleteCollection_fail_spec {α : Type} (docs : List α) (i : ℕ) (m : String)
    (h : 300 * i < docs.length) :
    deleteCollection docs 300 (some (i, m)) =
      (.error m, List.replicate i 300, i + 1, docs.drop (300 * i)) := by
  have := deleteRun_fail_spec (α := α) m i docs.length docs 0 0 (Nat.le_refl _) h
  simpa [deleteCollection] using this

set_option maxRecDepth 40000 in
/-- Claim C6: for a collection of exactly `N` documents,
`deleteCollection(db, name, 300)` performs `ceil(N/300)` fetch-and-delete
rounds (for `N = 700`: three rounds of 300, 300, 100), terminates (the final
fetch comes back empty) and returns `deleted = N`; on an empty collection it
performs one fetch, deletes nothing and returns 0 without error. -/
theorem C6_deleteCollection_batching :
    (∀ (α : Type) (docs : List α),
      (deleteCollection docs 300 none).1 = .ok docs.length ∧
      (deleteCollection docs 300 none).2.1.sum = docs.length ∧
      (deleteCollection docs 300 none).2.1.length = (docs.length + 299) / 300 ∧
      (deleteCollection docs 300 none).2.2.1 =
        (deleteCollection docs 300 none).2.1.length + 1 ∧
      (deleteCollection docs 300 none).2.2.2 = []) ∧
    deleteCollection (List.replicate 700 (0 : ℕ)) 300 none =
      (.ok 700, [300, 300, 100], 4, []) ∧
    deleteCollection ([] : List ℕ) 300 none = (.ok 0, [], 1, []) := by
  refine ⟨fun α docs => deleteCollection_none_spec docs, ?_, ?_⟩
  · rfl
  · rfl

/-- Claim C7: `/api/delete/all` drains the collections sequentially in the
order `sensorData`, `citizenReports`, `preReports`; a failing batch commit
aborts the whole operation (later collections are untouched — the result does
not even depend on their failure schedules), already-committed batches are not
rolled back (the failing collection keeps only the documents after the
committed prefix), and the response is `500 {ok:false, error, detail}`.  The
last conjunct is the failure-free run, which drains everything in order. -/
theorem C7_deleteAll_sequential_abort
    (st₁ st₂ st₃ : Store) (i j : ℕ) (m m' : String) (fP fC' fP' : Option (ℕ × String))
    (hC : 300 * i < st₁.citizenReports.length)
    (hS : 300 * j < st₂.sensorData.length) :
    deleteAllHandler st₁ none (some (i, m)) fP =
      (⟨500, false, none, some "Delete failed", some m⟩,
       ⟨[], st₁.citizenReports.drop (300 * i), st₁.preReports⟩) ∧
    deleteAllHandler st₂ (some (j, m')) fC' fP' =
      (⟨500, false, none, some "Delete failed", some m'⟩,
       ⟨st₂.sensorData.drop (300 * j), st₂.citizenReports, st₂.preReports⟩) ∧
    deleteAllHandler st₃ none none none =
      (⟨200, true,
        some (st₃.sensorData.length, st₃.citizenReports.length, st₃.preReports.length),
        none, none⟩,
       ⟨[], [], []⟩) := by
  obtain ⟨a1, -, -, -, a5⟩ := deleteCollection_none_spec st₁.sensorData
  obtain ⟨b1, -, -, -, b5⟩ := deleteCollection_none_spec st₃.sensorData
  obtain ⟨c1, -, -, -, c5⟩ := deleteCollection_none_spec st₃.citizenReports
  obtain ⟨d1, -, -, -, d5⟩ := deleteCollection_none_spec st₃.preReports
  refine ⟨?_, ?_, ?_⟩
  · simp only [deleteAllHandler, a1, a5,
      deleteCollection_fail_spec st₁.citizenReports i m hC]
  · simp only [deleteAllHandler, deleteCollection_fail_spec st₂.sensorData j m' hS]
  · simp only [deleteAllHandler, b1, b5, c1, c5, d1, d5]

/-- Witness document for the C7 stores. -/
def wSensorDoc : SensorDoc :=
  ⟨.val 1, .val 2, .val 3, .val 4, .val 0, .val 5, .server⟩

/-- Witness document for the C7 stores. -/
def wCitizenDoc : CitizenDoc := ⟨.val 1, .val 2, .val 3, .server⟩

/-- Store whose citizen collection fails while being erased. -/
def cexC7Store1 : Store := ⟨[], [("c1", wCitizenDoc)], []⟩

/-- Store whose sensor collection fails while being erased. -/
def cexC7Store2 : Store := ⟨[("s1", wSensorDoc)], [], []⟩

/-- Store erased without failure. -/
def cexC7Store3 : Store := ⟨[], [], []⟩

/-- Witness for C7: the abort/no-rollback behaviour at concrete stores, with
the citizen (resp. sensor) erase failing at its first batch commit. -/
theorem C7_deleteAll_witness :
    deleteAllHandler cexC7Store1 none (some (0, "boom")) none =
      (⟨500, false, none, some "Delete failed", some "boom"⟩,
       ⟨[], cexC7Store1.citizenReports.drop (300 * 0), cexC7Store1.preReports⟩) ∧
    deleteAllHandler cexC7Store2 (some (0, "crash")) none none =
      (⟨500, false, none, some "Delete failed", some "crash"⟩,
       ⟨cexC7Store2.sensorData.drop (300 * 0), cexC7Store2.citizenReports,
        cexC7Store2.preReports⟩) ∧
    deleteAllHandler cexC7Store3 none none none =
      (⟨200, true,
        some (cexC7Store3.sensorData.length, cexC7Store3.citizenReports.length,
          cexC7Store3.preReports.length),
        none, none⟩,
       ⟨[], [], []⟩) :=
  C7_deleteAll_sequential_abort cexC7Store1 cexC7Store2 cexC7Store3 0 0
    "boom" "crash" none none none (by decide) (by decide)

/-- Sensor record whose `time` (epoch 0) is far older than any 24h window. -/
def cexSensorDoc : SensorDoc := ⟨.val 1, .val 2, .val 3, .val 4, .val 0, .val 0, .server⟩

/-- Store holding only the stale sensor record. -/
def cexStore1 : Store := ⟨[("s1", cexSensorDoc)], [], []⟩

/-- Pre-report whose `endDate` (epoch 0) is in the past at read time 1000. -/
def cexPreDoc : PreDoc := ⟨.val 1, .val 2, .val 0, .val 0, .val 1, .server⟩

/-- Store holding only the expired pre-report. -/
def cexStore2 : Store := ⟨[], [], [("p1", cexPreDoc)]⟩

/-- Counterexample to claim C1 as stated: at read time `now = 86400001` the
stored sensor record with `time = 0` fails the spec predicate
`time > now - 24h`, yet `GET /api/data` still returns it — the code applies no
recency filter. -/
theorem C1_counterexample :
    ("s1", cexSensorDoc) ∈ (getData cexStore1).sensorData ∧
    specRecencyPred cexSensorDoc.time 86400001 = false := by
  constructor
  · simp [getData, cexStore1]
  · simp only [specRecencyPred, cexSensorDoc]
    norm_num

/-- Claim C1 (amended): `GET /api/data` returns every stored sensor and
citizen record unconditionally — membership in the `sensorData` and
`citizenReports` arrays is independent of the record's `time` field; no
24-hour recency window is applied. -/
theorem C1_amended_unfiltered_read (db : Store) (e : String × SensorDoc)
    (c : String × CitizenDoc) :
    (e ∈ (getData db).sensorData ↔ e ∈ db.sensorData) ∧
    (c ∈ (getData db).citizenReports ↔ c ∈ db.citizenReports) := by
  simp [getData]

/-- Counterexample to claim C2 as stated: at read time `now = 1000` the stored
pre-report with `endDate = 0 = now - 1000` fails the spec predicate
`endDate > now`, yet `GET /api/data` still returns it — the code applies no
validity filter. -/
theorem C2_counterexample :
    ("p1", cexPreDoc) ∈ (getData cexStore2).preReports ∧
    specValidityPred cexPreDoc.endDate 1000 = false := by
  constructor
  · simp [getData, cexStore2]
  · simp only [specValidityPred, cexPreDoc]
    norm_num

/-- Claim C2 (amended): `GET /api/data` returns every stored pre-report
unconditionally — membership in the `preReports` array is independent of both
`endDate` and `startDate`; no validity window is applied. -/
theorem C2_amended_unfiltered_read (db : Store) (p : String × PreDoc) :
    p ∈ (getData db).preReports ↔ p ∈ db.preReports := by
  simp [getData]

/-- Counterexample to claim C8 as stated: when the store read fails, the `500`
body of `GET /api/data` carries only the `error` field; none of the
`sensorData`, `citizenReports`, `preReports` empty-array fallbacks the claim
requires is present. -/
theorem C8_counterexample :
    (getDataHandler (.error "boom")).1 = 500 ∧
    (getDataHandler (.error "boom")).2.lookup "sensorData" = none ∧
    (getDataHandler (.error "boom")).2.lookup "citizenReports" = none ∧
    (getDataHandler (.error "boom")).2.lookup "preReports" = none ∧
    (getDataHandler (.error "boom")).2.lookup "error" =
      some (.sVal "Error fetching combined data from Firebase") := by decide

/-- Claim C8 (amended): on a failed store read, `GET /api/data` returns `500`
with a body holding exactly the `error` field and no payload-array fallbacks:
the `sensorData`, `citizenReports` and `preReports` keys are absent. -/
theorem C8_amended_error_body (e : String) :
    getDataHandler (.error e) =
      (500, [("error", .sVal "Error fetching combined data from Firebase")]) ∧
    (getDataHandler (.error e)).2.lookup "sensorData" = none ∧
    (getDataHandler (.error e)).2.lookup "citizenReports" = none ∧
    (getDataHandler (.error e)).2.lookup "preReports" = none := by
  refine ⟨rfl, rfl, rfl, rfl⟩

/-- A request body with no fields at all. -/
def emptyBody : Body := fun _ => none

/-- A store with all three collections empty. -/
def emptyStore : Store := ⟨[], [], []⟩

/-- Claim C3: an add-endpoint request missing any required field for its kind
(sensor: lat, lon, smoke, temp; citizen: lat, lon; pre: lat, lon, startDate,
endDate) is answered `400` and the store is left unchanged — no insert is
attempted and no document is created. -/
theorem C3_missing_field_rejected (db : Store) (bs bc bp : Body) (now : ℤ)
    (newId : String)
    (hS : bs "lat" = none ∨ bs "lon" = none ∨ bs "smoke" = none ∨ bs "temp" = none)
    (hC : bc "lat" = none ∨ bc "lon" = none)
    (hP : bp "lat" = none ∨ bp "lon" = none ∨ bp "startDate" = none ∨
      bp "endDate" = none) :
    addSensor db bs now newId =
      (.badRequest "Missing required fields for sensor data", db) ∧
    addCitizen db bc now newId =
      (.badRequest "Missing required fields for citizen report", db) ∧
    addPre db bp newId = (.badRequest "Missing required fields for pre-report", db) := by
  refine ⟨?_, ?_, ?_⟩
  · unfold addSensor
    rw [if_pos hS]
  · unfold addCitizen
    rw [if_pos hC]
  · unfold addPre
    rw [if_pos hP]

/-- Witness for C3: the empty body is rejected by all three endpoints with the
empty store unchanged. -/
theorem C3_missing_field_witness :
    addSensor emptyStore emptyBody 0 "id1" =
      (.badRequest "Missing required fields for sensor data", emptyStore) ∧
    addCitizen emptyStore emptyBody 0 "id1" =
      (.badRequest "Missing required fields for citizen report", emptyStore) ∧
    addPre emptyStore emptyBody "id1" =
      (.badRequest "Missing required fields for pre-report", emptyStore) :=
  C3_missing_field_rejected emptyStore emptyBody emptyBody emptyBody 0 "id1"
    (Or.inl rfl) (Or.inl rfl) (Or.inl rfl)

/-- The body fields any of the three add handlers destructure. -/
def handledKeys : List String :=
  ["lat", "lon", "smoke", "temp", "humidity", "time", "startDate", "endDate", "rangeKm"]

/-- Claim C5: `createdAt` is always the server-timestamp sentinel, never echoed
from the request body; two bodies agreeing on every destructured field (so
differing only in a client-supplied `createdAt` or any other extra field)
produce identical handler results. -/
theorem C5_createdAt_server_side (db : Store) (now : ℤ) (newId : String)
    (b₁ b₂ : Body) (h : ∀ k ∈ handledKeys, b₁ k = b₂ k) :
    addSensor db b₁ now newId = addSensor db b₂ now newId ∧
    addCitizen db b₁ now newId = addCitizen db b₂ now newId ∧
    addPre db b₁ newId = addPre db b₂ newId ∧
    (sensorNewDoc b₁ now).createdAt = .server ∧
    (citizenNewDoc b₁ now).createdAt = .server ∧
    (preNewDoc b₁).createdAt = .server := by
  have hlat := h "lat" (by simp [handledKeys])
  have hlon := h "lon" (by simp [handledKeys])
  have hsmoke := h "smoke" (by simp [handledKeys])
  have htemp := h "temp" (by simp [handledKeys])
  have hhum := h "humidity" (by simp [handledKeys])
  have htime := h "time" (by simp [handledKeys])
  have hsd := h "startDate" (by simp [handledKeys])
  have hed := h "endDate" (by simp [handledKeys])
  have hrange := h "rangeKm" (by simp [handledKeys])
  refine ⟨?_, ?_, ?_, rfl, rfl, rfl⟩
  · simp [addSensor, sensorNewDoc, hlat, hlon, hsmoke, htemp, hhum, htime]
  · simp [addCitizen, citizenNewDoc, hlat, hlon, htime]
  · simp [addPre, preNewDoc, hlat, hlon, hsd, hed, hrange]

/-- Body carrying a client-supplied `createdAt` besides the handled fields. -/
def c5BodyA : Body := assocBody
  [("lat", .num (.val 1)), ("lon", .num (.val 2)), ("smoke", .num (.val 3)),
   ("temp", .num (.val 4)), ("startDate", .num (.val 5)), ("endDate", .num (.val 6)),
   ("createdAt", .str "2001-01-01")]

/-- Same handled fields as `c5BodyA` but a different extra field. -/
def c5BodyB : Body := assocBody
  [("lat", .num (.val 1)), ("lon", .num (.val 2)), ("smoke", .num (.val 3)),
   ("temp", .num (.val 4)), ("startDate", .num (.val 5)), ("endDate", .num (.val 6)),
   ("extra", .bool true)]

/-- Witness for C5 at two concrete bodies that differ only in a client-supplied
`createdAt` and another extra field. -/
theorem C5_createdAt_witness :
    addSensor emptyStore c5BodyA 9 "id1" = addSensor emptyStore c5BodyB 9 "id1" ∧
    addCitizen emptyStore c5BodyA 9 "id1" = addCitizen emptyStore c5BodyB 9 "id1" ∧
    addPre emptyStore c5BodyA "id1" = addPre emptyStore c5BodyB "id1" ∧
    (sensorNewDoc c5BodyA 9).createdAt = .server ∧
    (citizenNewDoc c5BodyA 9).createdAt = .server ∧
    (preNewDoc c5BodyA).createdAt = .server :=
  C5_createdAt_server_side emptyStore 9 "id1" c5BodyA c5BodyB (by decide)

/-- Body whose `lat` is present but `null`. -/
def nullLatBody : Body := assocBody
  [("lat", .null), ("lon", .num (.val 1)), ("smoke", .num (.val 2)),
   ("temp", .num (.val 3))]

/-- Claim C9: the `400` rejection of each add endpoint fires exactly when a
required field is strictly `undefined` (absent); a present-but-`null` value
passes the guard, and the request proceeds to normalization (here `lat`
becomes `NaN`) and to insertion. -/
theorem C9_undefined_only_rejection (db : Store) (b : Body) (now : ℤ)
    (newId : String) :
    ((addSensor db b now newId).1.status = 400 ↔
      (b "lat" = none ∨ b "lon" = none ∨ b "smoke" = none ∨ b "temp" = none)) ∧
    ((addCitizen db b now newId).1.status = 400 ↔
      (b "lat" = none ∨ b "lon" = none)) ∧
    ((addPre db b newId).1.status = 400 ↔
      (b "lat" = none ∨ b "lon" = none ∨ b "startDate" = none ∨
        b "endDate" = none)) ∧
    addSensor db nullLatBody now newId =
      (.created (sensorNewDoc nullLatBody now),
       { db with sensorData := db.sensorData ++ [(newId, sensorNewDoc nullLatBody now)] }) ∧
    (sensorNewDoc nullLatBody now).lat = .nan := by
  refine ⟨?_, ?_, ?_, ?_, rfl⟩
  · by_cases hc : b "lat" = none ∨ b "lon" = none ∨ b "smoke" = none ∨ b "temp" = none
    · simp [addSensor, hc, AddResult.status]
    · simp [addSensor, hc, AddResult.status]
  · by_cases hc : b "lat" = none ∨ b "lon" = none
    · simp [addCitizen, hc, AddResult.status]
    · simp [addCitizen, hc, AddResult.status]
  · by_cases hc : b "lat" = none ∨ b "lon" = none ∨ b "startDate" = none ∨
      b "endDate" = none
    · simp [addPre, hc, AddResult.status]
    · simp [addPre, hc, AddResult.status]
  · unfold addSensor
    rw [if_neg (by decide)]

/-- Sensor body with `time: 0`. -/
def c10SensorBody0 : Body := assocBody
  [("lat", .num (.val 1)), ("lon", .num (.val 2)), ("smoke", .num (.val 3)),
   ("temp", .num (.val 4)), ("time", .num (.val 0))]

/-- Sensor body with `time: "0"`. -/
def c10SensorBodyS : Body := assocBody
  [("lat", .num (.val 1)), ("lon", .num (.val 2)), ("smoke", .num (.val 3)),
   ("temp", .num (.val 4)), ("time", .str "0")]

/-- Citizen body with `time: 0`. -/
def c10CitizenBody : Body := assocBody
  [("lat", .num (.val 1)), ("lon", .num (.val 2)), ("time", .num (.val 0))]

/-- Pre-report body with `rangeKm: 0`. -/
def c10PreBody : Body := assocBody
  [("lat", .num (.val 1)), ("lon", .num (.val 2)), ("startDate", .num (.val 5)),
   ("endDate", .num (.val 6)), ("rangeKm", .num (.val 0))]

/-- Claim C10: because the `time` default is applied by a falsiness test
(`parseInt(time) || Date.now()`), a client `time` parsing to `0` (either the
number `0` or the string `"0"`) is replaced by the ingestion wall-clock time
for both sensor and citizen records; likewise `rangeKm: 0` is falsy in
`rangeKm || 0.1`, so a pre-report with `rangeKm = 0` stores the default 0.1. -/
theorem C10_zero_falsy_defaults (now : ℤ) :
    (sensorNewDoc c10SensorBody0 now).time = .val (now : ℚ) ∧
    (sensorNewDoc c10SensorBodyS now).time = .val (now : ℚ) ∧
    (citizenNewDoc c10CitizenBody now).time = .val (now : ℚ) ∧
    (preNewDoc c10PreBody).rangeKm = .val (1 / 10) := by
  refine ⟨?_, ?_, ?_, ?_⟩
  · simp [sensorNewDoc, c10SensorBody0, assocBody, jsNumOrInt, jsParseInt,
      jsParseIntV, ratTrunc, JSNum.truthy]
  · simp [sensorNewDoc, c10SensorBodyS, assocBody, jsNumOrInt, jsParseInt,
      jsParseIntV, parseIntChars, stripSign, isJsSpace, digitsToNat, JSNum.truthy]
  · simp [citizenNewDoc, c10CitizenBody, assocBody, jsNumOrInt, jsParseInt,
      jsParseIntV, ratTrunc, JSNum.truthy]
  · simp [preNewDoc, c10PreBody, assocBody, jsOrVal, jsParseFloatV,
      JSVal.truthy, JSNum.truthy]

lemma parseFloat_37_5 : jsParseFloatV (.str "37.5") = .val (75 / 2) := by
  have h0 : "37.5".toList = ['3', '7', '.', '5'] := by decide
  have h1 : List.dropWhile isJsSpace ['3', '7', '.', '5'] = ['3', '7', '.', '5'] := by
    decide
  have h2 : stripSign ['3', '7', '.', '5'] = (false, ['3', '7', '.', '5']) := by decide
  have h3 : List.takeWhile Char.isDigit ['3', '7', '.', '5'] = ['3', '7'] := by decide
  have h4 : List.dropWhile Char.isDigit ['3', '7', '.', '5'] = ['.', '5'] := by decide
  have h5 : List.takeWhile Char.isDigit ['5'] = ['5'] := by decide
  have h6 : digitsToNat ['3', '7'] = 37 := by decide
  have h7 : digitsToNat ['5'] = 5 := by decide
  simp only [jsParseFloatV]
  rw [h0]
  simp only [parseFloatChars, h1, h2, h3, h4, h5, h6, h7]
  norm_num

/-- Sensor payload whose `lat` and `lon` arrive as numeric strings. -/
def c4Body : Body := assocBody
  [("lat", .str "37.5"), ("lon", .str "127.0"), ("smoke", .num (.val 1)),
   ("temp", .num (.val 2))]

/-- What the `src/unnamed/part_000` revision of `POST /api/add/sensor` stores
for `c4Body` at ingestion time 0: `lat`/`lon` kept as the supplied strings. -/
def c4RevDoc : SensorDocRev :=
  ⟨.str "37.5", .str "127.0", .val 1, .val 2, .val 0, .val 0, .server⟩

/-- Counterexample to claim C4 as stated: in the `src/unnamed/part_000`
revisions the valid payload `{lat:"37.5", lon:"127.0", smoke:1, temp:2}` is
accepted, but the stored record keeps `lat` as the string `"37.5"` — it is not
stored as the number 37.5. -/
theorem C4_counterexample :
    addSensorRev c4Body 0 = .created c4RevDoc ∧
    c4RevDoc.lat = .str "37.5" ∧
    c4RevDoc.lat ≠ .num (.val (75 / 2)) := by
  refine ⟨?_, rfl, by simp [c4RevDoc]⟩
  simp [addSensorRev, c4Body, assocBody, c4RevDoc, jsParseFloatV, jsOrVal,
    jsNumOrInt, jsParseInt, JSNum.truthy, JSVal.truthy]

/-- Claim C4 (amended): in the `src/api/index.js` handlers every numeric field
of the stored record (`lat`, `lon`, `smoke`, `temp`, `humidity` and `rangeKm`
via `parseFloat`; `time`, `startDate` and `endDate` via `parseInt`) is stored
as the number its input parses to, regardless of whether the input arrived as
a numeric string or as a number (in particular `lat:"37.5"` is stored as the
number 37.5); in the `src/unnamed/part_000` revisions the same holds for
`smoke`, `temp`, `humidity`, `time`, `startDate`, `endDate` and `rangeKm`,
but `lat` and `lon` are stored exactly as supplied.  The hypotheses say each
field is present and parses to the given rational (for `humidity`/`rangeKm`
the raw value is truthy so the `|| default` keeps it; for `time` the parse is
nonzero so `|| Date.now()` keeps it); the conclusions give every stored
document in full. -/
theorem C4_amended_numeric_coercion (b : Body) (now : ℤ)
    (vLat vLon vSmoke vTemp vHum vTime vSd vEd vRange : JSVal)
    (qLat qLon qSmoke qTemp qHum qTime qSd qEd qRange : ℚ)
    (hLat : b "lat" = some vLat) (pLat : jsParseFloatV vLat = .val qLat)
    (hLon : b "lon" = some vLon) (pLon : jsParseFloatV vLon = .val qLon)
    (hSmoke : b "smoke" = some vSmoke) (pSmoke : jsParseFloatV vSmoke = .val qSmoke)
    (hTemp : b "temp" = some vTemp) (pTemp : jsParseFloatV vTemp = .val qTemp)
    (hHum : b "humidity" = some vHum) (tHum : vHum.truthy = true)
    (pHum : jsParseFloatV vHum = .val qHum)
    (hTime : b "time" = some vTime) (pTime : jsParseIntV vTime = .val qTime)
    (tTime : qTime ≠ 0)
    (hSd : b "startDate" = some vSd) (pSd : jsParseIntV vSd = .val qSd)
    (hEd : b "endDate" = some vEd) (pEd : jsParseIntV vEd = .val qEd)
    (hRange : b "rangeKm" = some vRange) (tRange : vRange.truthy = true)
    (pRange : jsParseFloatV vRange = .val qRange) :
    sensorNewDoc b now =
      ⟨.val qLat, .val qLon, .val qSmoke, .val qTemp, .val qHum, .val qTime, .server⟩ ∧
    citizenNewDoc b now = ⟨.val qLat, .val qLon, .val qTime, .server⟩ ∧
    preNewDoc b = ⟨.val qLat, .val qLon, .val qSd, .val qEd, .val qRange, .server⟩ ∧
    jsParseFloatV (.str "37.5") = .val (75 / 2) ∧
    jsParseFloatV (.num (.val (75 / 2))) = .val (75 / 2) ∧
    addSensorRev b now =
      .created ⟨vLat, vLon, .val qSmoke, .val qTemp, .val qHum, .val qTime, .server⟩ ∧
    addCitizenRev b now = .created ⟨vLat, vLon, .val qTime, .server⟩ ∧
    addPreRev b = .created ⟨vLat, vLon, .val qSd, .val qEd, .val qRange, .server⟩ := by
  refine ⟨?_, ?_, ?_, parseFloat_37_5, rfl, ?_, ?_, ?_⟩
  · simp [sensorNewDoc, jsParseFloat, jsParseInt, jsOrVal, jsNumOrInt, JSNum.truthy,
      hLat, hLon, hSmoke, hTemp, hHum, hTime, pLat, pLon, pSmoke, pTemp, pHum, pTime,
      tHum, tTime]
  · simp [citizenNewDoc, jsParseFloat, jsParseInt, jsNumOrInt, JSNum.truthy,
      hLat, hLon, hTime, pLat, pLon, pTime, tTime]
  · simp [preNewDoc, jsParseFloat, jsParseInt, jsOrVal, JSNum.truthy,
      hLat, hLon, hSd, hEd, hRange, pLat, pLon, pSd, pEd, pRange, tRange]
  · simp only [addSensorRev, hLat, hLon, hSmoke, hTemp]
    simp [jsParseFloat, jsParseInt, jsOrVal, jsNumOrInt, JSNum.truthy,
      hHum, hTime, pSmoke, pTemp, pHum, pTime, tHum, tTime]
  · simp only [addCitizenRev, hLat, hLon]
    simp [jsParseInt, jsNumOrInt, JSNum.truthy, hTime, pTime, tTime]
  · simp only [addPreRev, hLat, hLon, hSd, hEd]
    simp [jsParseFloat, jsOrVal, JSNum.truthy, hRange, pSd, pEd, pRange, tRange]

/-- Sensor/citizen/pre payload supplying every numeric field, `lat` as the
numeric string `"37.5"` and the rest as numbers. -/
def c4FullBody : Body := assocBody
  [("lat", .str "37.5"), ("lon", .num (.val 127)), ("smoke", .num (.val 1)),
   ("temp", .num (.val 2)), ("humidity", .num (.val 3)), ("time", .num (.val 5)),
   ("startDate", .num (.val 7)), ("endDate", .num (.val 8)),
   ("rangeKm", .num (.val 9))]

lemma parseIntV_val_5 : jsParseIntV (.num (.val 5)) = .val 5 := by
  norm_num [jsParseIntV, ratTrunc]

lemma parseIntV_val_7 : jsParseIntV (.num (.val 7)) = .val 7 := by
  norm_num [jsParseIntV, ratTrunc]

lemma parseIntV_val_8 : jsParseIntV (.num (.val 8)) = .val 8 := by
  norm_num [jsParseIntV, ratTrunc]

/-- Witness for the amended C4 at the full concrete payload: every numeric
field of every constructed document, for both revisions. -/
theorem C4_amended_witness :
    sensorNewDoc c4FullBody 0 =
      ⟨.val (75 / 2), .val 127, .val 1, .val 2, .val 3, .val 5, .server⟩ ∧
    citizenNewDoc c4FullBody 0 = ⟨.val (75 / 2), .val 127, .val 5, .server⟩ ∧
    preNewDoc c4FullBody =
      ⟨.val (75 / 2), .val 127, .val 7, .val 8, .val 9, .server⟩ ∧
    jsParseFloatV (.str "37.5") = .val (75 / 2) ∧
    jsParseFloatV (.num (.val (75 / 2))) = .val (75 / 2) ∧
    addSensorRev c4FullBody 0 =
      .created ⟨.str "37.5", .num (.val 127), .val 1, .val 2, .val 3, .val 5, .server⟩ ∧
    addCitizenRev c4FullBody 0 =
      .created ⟨.str "37.5", .num (.val 127), .val 5, .server⟩ ∧
    addPreRev c4FullBody =
      .created ⟨.str "37.5", .num (.val 127), .val 7, .val 8, .val 9, .server⟩ :=
  C4_amended_numeric_coercion c4FullBody 0
    (.str "37.5") (.num (.val 127)) (.num (.val 1)) (.num (.val 2))
    (.num (.val 3)) (.num (.val 5)) (.num (.val 7)) (.num (.val 8)) (.num (.val 9))
    (75 / 2) 127 1 2 3 5 7 8 9
    rfl parseFloat_37_5 rfl rfl rfl rfl rfl rfl rfl (by decide) rfl
    rfl parseIntV_val_5 (by norm_num) rfl parseIntV_val_7 rfl parseIntV_val_8
    rfl (by decide) rfl

end FireDetect
